import Mathlib

/-!
Verification development for the arxiv_daily_aigc pipeline.

Python strings are modelled as lists of characters (`Str`), so that every
operation is a structurally recursive, kernel-computable Lean function.
Python dictionaries carrying paper data are modelled as association lists
or as structures holding exactly the fields the studied code reads.
External collaborators (the HTTP layer, the `json` module, the Azure
helper, `trafilatura`) are modelled as oracle parameters; everything that
is code of the repository is translated directly from the source.
-/

set_option maxHeartbeats 1000000

set_option maxRecDepth 10000

namespace ArxivDaily

/-! ## Python string primitives -/

abbrev Str := List Char

def strOf (s : String) : Str := s.toList

/-- Python `s.lower()` (ASCII case folding, which is what the roman
substrings compared by the code need). -/
def toLowerStr (s : Str) : Str := s.map Char.toLower

/-- Python `pat in s` (substring containment). -/
def containsSub (s pat : Str) : Bool :=
  match s with
  | [] => pat.isEmpty
  | _ :: rest => pat.isPrefixOf s || containsSub rest pat

/-- Python `s.strip()` (drop leading and trailing whitespace). -/
def pyStrip (s : Str) : Str :=
  ((s.dropWhile Char.isWhitespace).reverse.dropWhile Char.isWhitespace).reverse

/-- Fuelled worker for `pyReplace`; the fuel is only a structural-recursion
device, `s.length` steps always suffice because every step consumes at
least one character of `s`. -/
def pyReplaceF : Nat → Str → Str → Str → Str
  | 0, s, _, _ => s
  | _ + 1, [], _, _ => []
  | fuel + 1, c :: rest, pat, rep =>
    if 0 < pat.length ∧ pat.isPrefixOf (c :: rest) = true then
      rep ++ pyReplaceF fuel ((c :: rest).drop pat.length) pat rep
    else
      c :: pyReplaceF fuel rest pat rep

/-- Python `s.replace(pat, rep)` for a non-empty `pat`: replace every
non-overlapping occurrence, scanning left to right. -/
def pyReplace (s pat rep : Str) : Str := pyReplaceF s.length s pat rep

/-- Fuelled worker for `pySplit`; `acc` holds the current piece reversed. -/
def pySplitF : Nat → Str → Str → Str → List Str
  | 0, acc, s, _ => [acc.reverse ++ s]
  | _ + 1, acc, [], _ => [acc.reverse]
  | fuel + 1, acc, c :: rest, pat =>
    if 0 < pat.length ∧ pat.isPrefixOf (c :: rest) = true then
      acc.reverse :: pySplitF fuel [] ((c :: rest).drop pat.length) pat
    else
      pySplitF fuel (c :: acc) rest pat

/-- Python `s.split(pat)` for a non-empty separator `pat`. -/
def pySplit (s pat : Str) : List Str := pySplitF (s.length + 1) [] s pat

/-! ## Stable descending sort

Python `list.sort(key=…, reverse=True)` is a stable sort in which every
comparison is reversed: the result is ordered by descending key and
elements with equal keys keep their relative input order.  We model it by
a stable insertion sort: `insDesc` walks past every element strictly
greater than `x` and places `x` in front of the first element that is not
greater, so an element inserted later (which originated earlier in the
input) lands in front of equal-key elements. -/

namespace PySort

def insDesc (lt : A → A → Bool) (x : A) : List A → List A
  | [] => [x]
  | y :: ys => if lt x y then y :: insDesc lt x ys else x :: y :: ys

def sortDesc (lt : A → A → Bool) : List A → List A
  | [] => []
  | x :: xs => insDesc lt x (sortDesc lt xs)

theorem perm_insDesc (lt : A → A → Bool) (x : A) :
    ∀ l : List A, List.Perm (insDesc lt x l) (x :: l) := by
  intro l
  induction l with
  | nil => simp [insDesc]
  | cons y ys ih =>
    by_cases h : lt x y
    · simp only [insDesc, h, if_true]
      exact List.Perm.trans (List.Perm.cons y ih) (List.Perm.swap x y ys)
    · simp [insDesc, h]

theorem perm_sortDesc (lt : A → A → Bool) :
    ∀ l : List A, List.Perm (sortDesc lt l) l := by
  intro l
  induction l with
  | nil => simp [sortDesc]
  | cons x xs ih =>
    exact List.Perm.trans (perm_insDesc lt x (sortDesc lt xs)) (List.Perm.cons x ih)

theorem pairwise_insDesc (lt : A → A → Bool)
    (hA : ∀ a b, lt a b = true → lt b a = false)
    (hT : ∀ a b c, lt a b = false → lt b c = false → lt a c = false)
    (x : A) :
    ∀ l : List A, l.Pairwise (fun a b => lt a b = false) →
      (insDesc lt x l).Pairwise (fun a b => lt a b = false) := by
  intro l
  induction l with
  | nil => intro _; simp [insDesc]
  | cons y ys ih =>
    intro h
    rcases List.pairwise_cons.mp h with ⟨hy, hys⟩
    by_cases hxy : lt x y
    · simp only [insDesc, hxy, if_true]
      refine List.pairwise_cons.mpr ⟨?_, ih hys⟩
      intro z hz
      have hz2 : z ∈ x :: ys := (perm_insDesc lt x ys).mem_iff.mp hz
      rcases List.mem_cons.mp hz2 with hzx | hzys
      · rw [hzx]; exact hA x y hxy
      · exact hy z hzys
    · simp only [insDesc, hxy, if_false]
      have hxy2 : lt x y = false := eq_false_of_ne_true hxy
      refine List.pairwise_cons.mpr ⟨?_, h⟩
      intro z hz
      rcases List.mem_cons.mp hz with hzy | hzys
      · rw [hzy]; exact hxy2
      · exact hT x y z hxy2 (hy z hzys)

theorem pairwise_sortDesc (lt : A → A → Bool)
    (hA : ∀ a b, lt a b = true → lt b a = false)
    (hT : ∀ a b c, lt a b = false → lt b c = false → lt a c = false) :
    ∀ l : List A, (sortDesc lt l).Pairwise (fun a b => lt a b = false) := by
  intro l
  induction l with
  | nil => simp [sortDesc]
  | cons x xs ih => exact pairwise_insDesc lt hA hT x (sortDesc lt xs) ih

theorem filter_insDesc (lt : A → A → Bool) (p : A → Bool) (x : A)
    (hp : ∀ y, p x = true → p y = true → lt x y = false) :
    ∀ l : List A, (insDesc lt x l).filter p =
      if p x then x :: l.filter p else l.filter p := by
  intro l
  induction l with
  | nil =>
    by_cases hx : p x <;> simp [insDesc, hx]
  | cons y ys ih =>
    by_cases hxy : lt x y
    · simp only [insDesc, hxy, if_true]
      by_cases hx : p x
      · have hpy : p y = false := by
          by_cases hy : p y
          · exact absurd (hp y hx hy) (by simp [hxy])
          · exact eq_false_of_ne_true hy
        simp [List.filter_cons, hpy, ih, hx]
      · have hx2 : p x = false := eq_false_of_ne_true hx
        simp [List.filter_cons, ih, hx2]
    · simp only [insDesc, hxy, if_false]
      by_cases hx : p x <;> simp [List.filter_cons, hx]

theorem filter_sortDesc (lt : A → A → Bool) (p : A → Bool)
    (hp : ∀ a b, p a = true → p b = true → lt a b = false) :
    ∀ l : List A, (sortDesc lt l).filter p = l.filter p := by
  intro l
  induction l with
  | nil => simp [sortDesc]
  | cons x xs ih =>
    have h := filter_insDesc lt p x (fun y => hp x y) (sortDesc lt xs)
    by_cases hx : p x
    · rw [sortDesc, h, if_pos hx, ih, List.filter_cons, if_pos hx]
    · rw [sortDesc, h, ih, List.filter_cons]

end PySort

/-! ## Embedding of `src/filter.py`

The HTTP transport (`requests.post`), the Azure helper (`azure_openai`,
not part of this repository) and `json.loads` are external collaborators
and enter as oracle values; the repository code translated here is
`call_openrouter_api` (lines 17-59), `call_llm_by_model` (lines 62-86),
`filter_papers_by_topic` (lines 89-126) and `rate_papers` (lines
165-212). -/

namespace FilterPy

/-- Outcome of the `requests.post` call inside `call_openrouter_api`:
either a raised `requests.exceptions.RequestException` (covering network
errors and timeouts), or a response with an HTTP status code and, when
the JSON body decodes and carries `choices[0].message.content` as a
string, that reply text (`none` models a body for which decoding or the
field chain fails, which the source converts to `None` through its
`except` handlers). -/
inductive PostResult where
  | transportErr
  | resp (status : Nat) (reply : Option Str)
deriving DecidableEq

/-- Ambient state read by `call_openrouter_api`: the `OPENROUTER_API_KEY`
environment variable (`none` = unset; the empty string is falsy too, as
in `if not OPENROUTER_API_KEY`) and the transport outcome. -/
structure ORouterEnv where
  apiKey : Option Str
  post : PostResult

/-- `filter.call_openrouter_api`, lines 17-59.  `response.raise_for_status()`
raises `requests.HTTPError` (a `RequestException`) exactly for status
codes in `[400, 600)`; every handler returns `None`. -/
def callOpenrouterApi (env : ORouterEnv) (_prompt _model : Str) (_maxTokens : Nat) : Option Str :=
  if (env.apiKey.getD []).isEmpty then none
  else
    match env.post with
    | PostResult.transportErr => none
    | PostResult.resp status reply =>
      if 400 ≤ status ∧ status < 600 then none
      else
        match reply with
        | none => none
        | some r => some (pyStrip r)

/-- Outcome of `azure_openai.call_llm` (external module): a returned
string, or a raised exception (caught by the source and turned into
`None`). -/
inductive AzureResult where
  | ok (text : Str)
  | raised
deriving DecidableEq

/-- Ambient state for the Azure branch of `call_llm_by_model`: whether
`from azure_openai import call_llm` succeeds, and the call outcome. -/
structure AzureEnv where
  importOk : Bool
  result : AzureResult

/-- One backend invocation recorded by the instrumented dispatcher, with
the `max_tokens` value the backend actually receives. -/
inductive LlmCall where
  | azure (deployment : Str) (maxTokens : Nat)
  | openrouter (model : Str) (maxTokens : Nat)
deriving DecidableEq

/-- `filter.call_llm_by_model`, lines 62-86, instrumented with the list
of backend calls it performs.  The Azure branch executes
`max_tokens += 10000` (line 79) before calling the backend; the
OpenRouter branch forwards `max_tokens` unchanged (line 86). -/
def callLlmByModel (az : AzureEnv) (orEnv : ORouterEnv) (prompt model : Str) (maxTokens : Nat) :
    Option Str × List LlmCall :=
  if (strOf ("azure-")).isPrefixOf model then
    if az.importOk = false then (none, [])
    else
      let deployment := model.drop (strOf ("azure-")).length
      let mt := maxTokens + 10000
      match az.result with
      | AzureResult.ok s => (some s, [LlmCall.azure deployment mt])
      | AzureResult.raised => (none, [LlmCall.azure deployment mt])
  else
    (callOpenrouterApi orEnv prompt model maxTokens, [LlmCall.openrouter model maxTokens])

/-- A paper as read by `filter_papers_by_topic`: the code only reads
`paper.get('title', 'N/A')` and `paper.get('summary', 'N/A')`, so the
model keeps those two optional fields. -/
structure FPaper where
  title : Option Str
  summary : Option Str
deriving DecidableEq

/-- Decision rule of `filter_papers_by_topic`, lines 117-123: a paper is
kept iff the dispatcher returned a reply (`is not None`) whose lowercase
form contains the substring `yes`; `None` falls into the `else` branch
and the paper is skipped. -/
def keepResponse (r : Option Str) : Bool :=
  match r with
  | some s => containsSub (toLowerStr s) (strOf ("yes"))
  | none => false

/-- `filter.filter_papers_by_topic`, lines 89-126.  The dispatcher oracle
is keyed by the paper record, from whose `title`/`summary` fields the
source builds its single prompt (lines 110-113, one call per paper with
`max_tokens=5`); the accumulating `filtered_papers.append` loop is the
structural recursion. -/
def filterPapersByTopic (llm : FPaper → Option Str) : List FPaper → List FPaper
  | [] => []
  | p :: rest =>
    if keepResponse (llm p) then p :: filterPapersByTopic llm rest
    else filterPapersByTopic llm rest

/-- JSON-style values stored in a paper record by the rating stage. -/
inductive PVal where
  | s (v : Str)
  | n (v : Int)
deriving DecidableEq

/-- A paper record as a Python dict: an insertion-ordered association
list (Python dicts preserve insertion order). -/
abbrev RObj := List (Str × PVal)

/-- Python dict assignment `d[k] = v`: overwrite in place when the key
exists, else append. -/
def setKey (d : RObj) (k : Str) (v : PVal) : RObj :=
  if d.any (fun kv => kv.1 == k) then
    d.map (fun kv => if kv.1 == k then (k, v) else kv)
  else d ++ [(k, v)]

/-- Python `d.update(u)`: assign every key of `u` in order. -/
def dictUpdate (d upd : RObj) : RObj :=
  upd.foldl (fun acc kv => setKey acc kv.1 kv.2) d

/-- Lines 190-191 of `rate_papers`: when the reply contains a
fenced wrapper, keep `reply.split('```json')[1].split('```')[0]`. -/
def stripFence (r : Str) : Str :=
  if containsSub r (strOf ("```json")) then
    (pySplit ((pySplit r (strOf ("```json"))).getD 1 []) (strOf ("```"))).headD []
  else r

/-- One rating attempt, lines 186-202: a dispatch reply is required
(`None` fails the attempt), the optional fence is stripped, and the
`parse` oracle models `json.loads` restricted to replies that decode to
a JSON object (a decode error raises `json.JSONDecodeError`, and a
non-object decode makes `papers[i].update` raise; both are caught and
fail the attempt).  On success the object is merged into the record. -/
def ratePaperOnce (parse : Str → Option RObj) (resp : Option Str) (paper : RObj) : Option RObj :=
  match resp with
  | none => none
  | some r =>
    match parse (stripFence r) with
    | some obj => some (dictUpdate paper obj)
    | none => none

/-- The `for attempt in range(2)` loop of `rate_papers`, lines 184-208,
unrolled: each attempt issues exactly one dispatch call (`llm a` is the
reply of attempt `a`); a success breaks out of the loop.  Returns the
resulting record and the number of dispatch calls made. -/
def ratePaper (parse : Str → Option RObj) (llm : Nat → Option Str) (paper : RObj) : RObj × Nat :=
  match ratePaperOnce parse (llm 0) paper with
  | some p2 => (p2, 1)
  | none =>
    match ratePaperOnce parse (llm 1) paper with
    | some p2 => (p2, 2)
    | none => (paper, 2)

/-- The outer `for i, paper in enumerate(papers)` loop of `rate_papers`:
a failed paper is skipped with `continue` and the loop always advances
to the next paper. -/
def ratePapersAux (parse : Str → Option RObj) (llm : Nat → Nat → Option Str) :
    Nat → List RObj → List RObj
  | _, [] => []
  | i, p :: rest => (ratePaper parse (llm i) p).1 :: ratePapersAux parse llm (i + 1) rest

/-- `filter.rate_papers`, lines 165-212 (mutates and returns the same
list). -/
def ratePapers (parse : Str → Option RObj) (llm : Nat → Nat → Option Str)
    (papers : List RObj) : List RObj :=
  ratePapersAux parse llm 0 papers

end FilterPy

/-! ## Embedding of `src/extract_summarize.py`

`requests.get`, `trafilatura` and the dispatcher reply are oracles; the
PDF download (line 133) is a best-effort local cache whose failure does
not influence control flow, so it leaves no trace in the model. -/

namespace ExtractPy

/-- `_derive_html_url`, lines 29-38. -/
def deriveHtmlUrl (url : Str) : Option Str :=
  if url.isEmpty then none
  else some (pyReplace url (strOf ("/abs/")) (strOf ("/html/")))

/-- `_derive_pdf_url`, lines 13-26 (the local variable `pdf_url` is
inlined as the repeated `pyReplace` application). -/
def derivePdfUrl (url : Str) : Option Str :=
  if url.isEmpty = true then none
  else if containsSub url (strOf ("/pdf/")) = true ∧ (strOf (".pdf")).isSuffixOf url = true then
    some url
  else if (strOf (".pdf")).isSuffixOf (pyReplace url (strOf ("/abs/")) (strOf ("/pdf/"))) = true then
    some (pyReplace url (strOf ("/abs/")) (strOf ("/pdf/")))
  else some (pyReplace url (strOf ("/abs/")) (strOf ("/pdf/")) ++ strOf (".pdf"))

/-- Outcome of `requests.get(html_url)`: a raised exception (any kind —
the whole body is wrapped in `try/except Exception`) or a response with
status code and text. -/
inductive FetchOutcome where
  | transportErr
  | ok (status : Nat) (body : Str)
deriving DecidableEq

/-- Oracles for one `extract_and_summarize` invocation: the HTML fetch
outcome, whether `import trafilatura` succeeds, the extractor result
(`[]` models both `None` and an empty string, which are equally falsy),
and the dispatcher reply for the at most one `call_llm_by_model` call
the source makes. -/
structure ESEnv where
  get : FetchOutcome
  trafOk : Bool
  extract : Str → Str
  llmResp : Option Str

/-- `_fetch_arxiv_html_text`, lines 41-64: requires a derivable HTML
URL, status 200, an importable `trafilatura`, and extracted text whose
stripped length exceeds 200; returns the stripped text, else `None`. -/
def fetchArxivHtmlText (env : ESEnv) (url : Str) : Option Str :=
  match deriveHtmlUrl url with
  | none => none
  | some _ =>
    match env.get with
    | FetchOutcome.transportErr => none
    | FetchOutcome.ok status body =>
      if status ≠ 200 then none
      else if env.trafOk = false then none
      else
        let text := env.extract body
        if text ≠ [] ∧ 200 < (pyStrip text).length then some (pyStrip text)
        else none

def MAX_INPUT_CHARS : Nat := 100000

def MAX_ARTICLE_TOKENS_TEXT_IMAGE : Nat := 20000

def MAX_ARTICLE_TOKENS_TEXT : Nat := 10000

/-- A paper as read by `extract_and_summarize` (`title`, `summary`,
`url`, and the `llm_summary` field the function may add). -/
structure ESPaper where
  title : Str
  summary : Str
  url : Str
  llmSummary : Option Str
deriving DecidableEq

/-- One dispatcher call recorded by the instrumented summarizer: the
full-text path with the length of the truncated excerpt it sends, or
the PDF-attachment path with the derived PDF URL.  Both record the
output-token budget passed as `max_tokens`. -/
inductive SummCall where
  | textCall (excerptLen : Nat) (maxTokens : Nat)
  | pdfCall (pdfUrl : Str) (maxTokens : Nat)
deriving DecidableEq

/-- Lines 154-157: `if response: paper["llm_summary"] = response.strip()`
(a `None` or empty reply leaves the paper unchanged). -/
def applyResp (paper : ESPaper) (resp : Option Str) : ESPaper :=
  match resp with
  | some r =>
    if r.isEmpty then paper
    else ESPaper.mk paper.title paper.summary paper.url (some (pyStrip r))
  | none => paper

/-- `extract_and_summarize`, lines 86-158.  Whether the model id starts
with `azure-` only changes how the prompt/messages are packaged; on the
full-text path both branches issue exactly one dispatcher call with
`max_tokens = MAX_ARTICLE_TOKENS_TEXT` over the excerpt truncated to
`MAX_INPUT_CHARS`, and on the PDF path both branches issue exactly one
call with `max_tokens = MAX_ARTICLE_TOKENS_TEXT_IMAGE`, so the recorded
trace is branch-independent. -/
def extractAndSummarize (env : ESEnv) (paper : ESPaper) (_model : Str) : ESPaper × List SummCall :=
  match fetchArxivHtmlText env paper.url with
  | some text =>
    let excerpt := text.take MAX_INPUT_CHARS
    (applyResp paper env.llmResp, [SummCall.textCall excerpt.length MAX_ARTICLE_TOKENS_TEXT])
  | none =>
    match derivePdfUrl paper.url with
    | none => (paper, [])
    | some pdfUrl =>
      (applyResp paper env.llmResp, [SummCall.pdfCall pdfUrl MAX_ARTICLE_TOKENS_TEXT_IMAGE])

end ExtractPy

/-! ## Embedding of `src/main.py`

The feed client (`scraper.fetch_papers`), the filter/rating stages and
the per-paper summarizer enter as oracle functions (their own bodies are
embedded separately above); `main` is translated as a function from an
environment of oracle outcomes and a file-system state to the final
file-system state plus the ordered trace of its externally visible
steps. -/

namespace MainPy

/-- A paper record at the orchestration level: an identity tag plus the
only field `main` itself reads, `overall_priority_score` (absent when
rating failed). -/
structure PaperM where
  pid : Nat
  score : Option Int
deriving DecidableEq

/-- The sort key of line 61: `x.get('overall_priority_score', 0)`. -/
def scoreOf (p : PaperM) : Int := p.score.getD 0

def scoreLt (a b : PaperM) : Bool := decide (scoreOf a < scoreOf b)

/-- Line 61: `filtered_papers.sort(key=lambda x: x.get('overall_priority_score', 0), reverse=True)`
— a stable sort by descending score. -/
def sortByScoreDesc (ps : List PaperM) : List PaperM := PySort.sortDesc scoreLt ps

/-- Python string comparison (lexicographic on code points), used by
`html_files.sort(reverse=True)` on line 125. -/
def strLtB : Str → Str → Bool
  | [], [] => false
  | [], _ :: _ => true
  | _ :: _, [] => false
  | a :: as, b :: bs =>
    if a.toNat < b.toNat then true
    else if b.toNat < a.toNat then false
    else strLtB as bs

/-- Externally visible steps of one `main` invocation, in order. -/
inductive Ev where
  | fetch
  | filterStage
  | rateStage
  | summarizeStage
  | writeArtifact
  | render
  | writeIndex (entries : List Str)
  | completed
deriving DecidableEq

/-- Outcome of `generate_html_from_json` (external renderer): normal
return, a raised `FileNotFoundError` (the "template not found"
condition, caught on line 138), or any other raised exception (caught
on line 140). -/
inductive RenderOutcome where
  | ok
  | templateNotFound
  | otherError
deriving DecidableEq

/-- Oracle outcomes consumed by one `main` invocation. -/
structure MainEnv where
  fetchResult : List PaperM
  filterFn : List PaperM → List PaperM
  rateFn : List PaperM → List PaperM
  summarizeFn : PaperM → Option PaperM
  writeOk : Bool
  renderOutcome : RenderOutcome
  htmlListing : Option (List Str)
  providerFeed : Str

/-- The file-system facts `main` manipulates for one run key: the
per-(date, feed) JSON artifact (`none` = file absent, `some c` = file
present with byte content `c`) and the `reports.json` index content. -/
structure FSState where
  artifact : Option Str
  reports : Option (List Str)
deriving DecidableEq

/-- Serialization of one paper record, standing for the `json.dump`
entry. -/
def jsonPaper (p : PaperM) : Str :=
  strOf ("\x7b\"pid\": ") ++ strOf (toString p.pid) ++
    (match p.score with
     | some s => strOf (", \"overall_priority_score\": ") ++ strOf (toString s)
     | none => []) ++ strOf ("\x7d")

/-- `json.dump(filtered_papers, f, …)` of a list: always at least the
two bracket bytes, hence never an empty file. -/
def jsonDumpPapers (ps : List PaperM) : Str :=
  strOf ("[") ++ List.intercalate (strOf (", ")) (ps.map jsonPaper) ++ strOf ("]")

/-- The secondary-index content built on lines 122-125:
`[os.path.join(provider_feed, f) for f in os.listdir(dir) if f.endswith('.html')]`
followed by `html_files.sort(reverse=True)` — the `.html` entries of
the render output directory, each prefixed with the feed name, sorted
by identifier descending. -/
def indexEntries (feed : Str) (files : List Str) : List Str :=
  PySort.sortDesc strLtB
    ((files.filter (fun f => (strOf (".html")).isSuffixOf f)).map
      (fun f => feed ++ strOf ("/") ++ f))

/-- Steps 4 and 5 of `main`, lines 100-143: re-check the artifact (line
103), invoke the renderer, and — only inside the same `try`, after a
normal renderer return — rebuild `reports.json` as `indexEntries` over
the output directory, or as an empty list when the directory is
missing.  A renderer exception is caught (lines 138-141) after which
control falls through to line 143 without touching `reports.json`. -/
def renderAndIndex (env : MainEnv) (fs : FSState) : FSState × List Ev :=
  if fs.artifact.isNone then (fs, [])
  else
    match env.renderOutcome with
    | RenderOutcome.ok =>
      let entries :=
        match env.htmlListing with
        | some files => indexEntries env.providerFeed files
        | none => []
      (FSState.mk fs.artifact (some entries), [Ev.render, Ev.writeIndex entries, Ev.completed])
    | RenderOutcome.templateNotFound => (fs, [Ev.render, Ev.completed])
    | RenderOutcome.otherError => (fs, [Ev.render, Ev.completed])

/-- `main.main`, lines 26-143.  On a cache hit (line 37) the fetch,
filter, rating and summarization steps are skipped and control goes
straight to rendering; on a miss, an empty fetch aborts the run with no
artifact written (lines 46-48); otherwise filter → rate → stable sort by
descending score → per-paper summarization (each paper's exception
caught, line 74, keeping the previous record) → artifact write (an
`IOError` aborts before rendering, line 93) → rendering and index
update. -/
def mainRun (env : MainEnv) (fs : FSState) : FSState × List Ev :=
  if fs.artifact.isSome then renderAndIndex env fs
  else
    if env.fetchResult.isEmpty then (fs, [Ev.fetch])
    else
      let filtered := env.filterFn env.fetchResult
      let rated := env.rateFn filtered
      let sorted := sortByScoreDesc rated
      let summarized := sorted.map (fun p => (env.summarizeFn p).getD p)
      if env.writeOk then
        let fs2 := FSState.mk (some (jsonDumpPapers summarized)) fs.reports
        let out := renderAndIndex env fs2
        (out.1, [Ev.fetch, Ev.filterStage, Ev.rateStage, Ev.summarizeStage, Ev.writeArtifact] ++ out.2)
      else
        (fs, [Ev.fetch, Ev.filterStage, Ev.rateStage, Ev.summarizeStage])

/-- Every event a `renderAndIndex` trace can contain; `computeFree`
marks the events that are NOT part of the fetch/filter/rate/summarize
computation. -/
def computeFree : Ev → Bool
  | Ev.fetch => false
  | Ev.filterStage => false
  | Ev.rateStage => false
  | Ev.summarizeStage => false
  | _ => true

end MainPy

/-! ## Helper lemmas -/

theorem strLtB_asymm : ∀ a b : Str, MainPy.strLtB a b = true → MainPy.strLtB b a = false := by
  intro a
  induction a with
  | nil =>
    intro b h
    cases b with
    | nil => simp [MainPy.strLtB] at h
    | cons y ys => simp [MainPy.strLtB]
  | cons x xs ih =>
    intro b h
    cases b with
    | nil => simp [MainPy.strLtB] at h
    | cons y ys =>
      simp only [MainPy.strLtB] at h ⊢
      by_cases h1 : x.toNat < y.toNat
      · have h2 : ¬ y.toNat < x.toNat := by omega
        simp [h1, h2]
      · by_cases h2 : y.toNat < x.toNat
        · simp [h1, h2] at h
        · simp only [h1, if_false, h2] at h ⊢
          exact ih ys h

theorem strLtB_negTrans :
    ∀ a b c : Str, MainPy.strLtB a b = false → MainPy.strLtB b c = false →
      MainPy.strLtB a c = false := by
  intro a
  induction a with
  | nil =>
    intro b c hab hbc
    cases b with
    | cons y ys => simp [MainPy.strLtB] at hab
    | nil =>
      cases c with
      | cons z zs => simp [MainPy.strLtB] at hbc
      | nil => simp [MainPy.strLtB]
  | cons x xs ih =>
    intro b c hab hbc
    cases c with
    | nil => simp [MainPy.strLtB]
    | cons z zs =>
      cases b with
      | nil => simp [MainPy.strLtB] at hbc
      | cons y ys =>
        simp only [MainPy.strLtB] at hab hbc ⊢
        by_cases hxy : x.toNat < y.toNat
        · simp [hxy] at hab
        · by_cases hyz : y.toNat < z.toNat
          · simp [hyz] at hbc
          · by_cases hxz : x.toNat < z.toNat
            · omega
            · by_cases hzx : z.toNat < x.toNat
              · simp [hxz, hzx]
              · have hyx : ¬ y.toNat < x.toNat := by omega
                simp only [hxy, if_false, hyx] at hab
                have hzy : ¬ z.toNat < y.toNat := by omega
                simp only [hyz, if_false, hzy] at hbc
                simp only [hxz, if_false, hzx]
                exact ih ys zs hab hbc

theorem scoreLt_asymm (a b : MainPy.PaperM) :
    MainPy.scoreLt a b = true → MainPy.scoreLt b a = false := by
  simp only [MainPy.scoreLt, decide_eq_true_eq, decide_eq_false_iff_not]
  omega

theorem scoreLt_negTrans (a b c : MainPy.PaperM) :
    MainPy.scoreLt a b = false → MainPy.scoreLt b c = false →
      MainPy.scoreLt a c = false := by
  simp only [MainPy.scoreLt, decide_eq_false_iff_not]
  omega

theorem derivePdfUrl_some (url : Str) (h : url ≠ []) :
    ∃ t, ExtractPy.derivePdfUrl url = some t ∧ (strOf (".pdf")).isSuffixOf t = true := by
  have hne : ¬ (url.isEmpty = true) := by
    cases url with
    | nil => exact absurd rfl h
    | cons c cs => simp
  unfold ExtractPy.derivePdfUrl
  rw [if_neg hne]
  by_cases h2 : containsSub url (strOf ("/pdf/")) = true ∧ (strOf (".pdf")).isSuffixOf url = true
  · rw [if_pos h2]
    exact ⟨url, rfl, h2.2⟩
  · rw [if_neg h2]
    by_cases h3 :
      (strOf (".pdf")).isSuffixOf (pyReplace url (strOf ("/abs/")) (strOf ("/pdf/"))) = true
    · rw [if_pos h3]
      exact ⟨_, rfl, h3⟩
    · rw [if_neg h3]
      refine ⟨_, rfl, ?_⟩
      rw [List.isSuffixOf_iff_suffix]
      exact List.suffix_append _ _

theorem derivePdfUrl_none_iff (url : Str) : ExtractPy.derivePdfUrl url = none ↔ url = [] := by
  constructor
  · intro h
    by_contra hne
    obtain ⟨t, ht, _⟩ := derivePdfUrl_some url hne
    rw [ht] at h
    cases h
  · intro h
    rw [h]
    rfl

theorem renderAndIndex_artifact (env : MainPy.MainEnv) (fs : MainPy.FSState) :
    (MainPy.renderAndIndex env fs).1.artifact = fs.artifact := by
  unfold MainPy.renderAndIndex
  by_cases h : fs.artifact.isNone
  · simp [h]
  · simp only [h, if_false]
    cases env.renderOutcome <;> simp

theorem renderAndIndex_computeFree (env : MainPy.MainEnv) (fs : MainPy.FSState) :
    (MainPy.renderAndIndex env fs).2.all MainPy.computeFree = true := by
  unfold MainPy.renderAndIndex
  by_cases h : fs.artifact.isNone
  · simp [h]
  · simp only [h, if_false]
    cases env.renderOutcome <;> simp [MainPy.computeFree]

theorem renderAndIndex_render_mem (env : MainPy.MainEnv) (fs : MainPy.FSState)
    (h : fs.artifact.isSome = true) :
    MainPy.Ev.render ∈ (MainPy.renderAndIndex env fs).2 := by
  unfold MainPy.renderAndIndex
  have h2 : fs.artifact.isNone = false := by
    cases hc : fs.artifact with
    | none => rw [hc] at h; cases h
    | some c => rfl
  simp only [h2, Bool.false_eq_true, if_false]
  cases env.renderOutcome <;> simp

theorem mainRun_hit (env : MainPy.MainEnv) (fs : MainPy.FSState)
    (h : fs.artifact.isSome = true) :
    MainPy.mainRun env fs = MainPy.renderAndIndex env fs := by
  unfold MainPy.mainRun
  simp [h]

/-! ## Claim C3 -/

def c3P1 : FilterPy.FPaper :=
  FilterPy.FPaper.mk (some (strOf ("Paper one"))) (some (strOf ("about A")))

def c3P2 : FilterPy.FPaper :=
  FilterPy.FPaper.mk (some (strOf ("Paper two"))) (some (strOf ("about B")))

def c3P3 : FilterPy.FPaper :=
  FilterPy.FPaper.mk (some (strOf ("Paper three"))) (some (strOf ("about C")))

/-- Stub dispatcher for the three-paper example of the spec: replies
`["yes", "no", "YES please"]` for the three papers in order. -/
def c3Llm (p : FilterPy.FPaper) : Option Str :=
  if p = c3P1 then some (strOf ("yes"))
  else if p = c3P2 then some (strOf ("no"))
  else some (strOf ("YES please"))

/-- Claim C3: the relevance filter retains a paper iff its single
dispatcher response is non-failing and its lowercase form contains the
substring `yes` (any other text or a dispatch failure drops the paper,
single-shot, no retry), so the output is exactly the order-preserving
subsequence of the input selected by that rule; on the spec example
with replies `["yes", "no", "YES please"]`, exactly the first and third
papers are retained, in their original relative order. -/
theorem relevanceFilter_decision :
    (∀ (llm : FilterPy.FPaper → Option Str) (papers : List FilterPy.FPaper),
      FilterPy.filterPapersByTopic llm papers =
        papers.filter (fun p => FilterPy.keepResponse (llm p)) ∧
      List.Sublist (FilterPy.filterPapersByTopic llm papers) papers) ∧
    FilterPy.filterPapersByTopic c3Llm [c3P1, c3P2, c3P3] = [c3P1, c3P3] := by
  constructor
  · intro llm papers
    have hf : ∀ ps : List FilterPy.FPaper,
        FilterPy.filterPapersByTopic llm ps =
          ps.filter (fun p => FilterPy.keepResponse (llm p)) := by
      intro ps
      induction ps with
      | nil => rfl
      | cons p rest ih =>
        simp only [FilterPy.filterPapersByTopic, List.filter_cons]
        by_cases hp : FilterPy.keepResponse (llm p) = true
        · rw [if_pos hp, if_pos hp, ih]
        · rw [if_neg hp, if_neg hp, ih]
    refine ⟨hf papers, ?_⟩
    rw [hf papers]
    exact List.filter_sublist papers
  · decide

/-! ## Claim C5 (corrected) -/

/-- Counterexample to claim C5 as stated: on input scores `[5, 9, 9, 2]`
the program's stable descending sort produces the order
`[idx1, idx2, idx0, idx3]` (scores `[9, 9, 5, 2]`), not the claimed
`[idx1, idx2, idx3, idx0]`, which would place score 2 before score 5. -/
theorem postRating_sortStable_cex :
    MainPy.sortByScoreDesc
        [MainPy.PaperM.mk 0 (some 5), MainPy.PaperM.mk 1 (some 9),
         MainPy.PaperM.mk 2 (some 9), MainPy.PaperM.mk 3 (some 2)] =
      [MainPy.PaperM.mk 1 (some 9), MainPy.PaperM.mk 2 (some 9),
       MainPy.PaperM.mk 0 (some 5), MainPy.PaperM.mk 3 (some 2)] ∧
    MainPy.sortByScoreDesc
        [MainPy.PaperM.mk 0 (some 5), MainPy.PaperM.mk 1 (some 9),
         MainPy.PaperM.mk 2 (some 9), MainPy.PaperM.mk 3 (some 2)] ≠
      [MainPy.PaperM.mk 1 (some 9), MainPy.PaperM.mk 2 (some 9),
       MainPy.PaperM.mk 3 (some 2), MainPy.PaperM.mk 0 (some 5)] := by
  constructor
  · decide
  · decide

/-- Claim C5 (amended): the post-rating sort orders any list of papers
by `overall_priority_score` descending, treating an absent score as 0:
the result is a permutation of the input, pairwise ordered by
non-increasing score, and stable (for every score value, the papers
carrying exactly that score keep their original relative order); on
input scores `[5, 9, 9, 2]` the output order is
`[idx1, idx2, idx0, idx3]` — the two 9-scored items retain their
original relative order, followed by the scores 5 and 2. -/
theorem postRating_sortStable (ps : List MainPy.PaperM) :
    List.Perm (MainPy.sortByScoreDesc ps) ps ∧
    (MainPy.sortByScoreDesc ps).Pairwise (fun a b => MainPy.scoreOf b ≤ MainPy.scoreOf a) ∧
    (∀ v : Int,
      (MainPy.sortByScoreDesc ps).filter (fun p => MainPy.scoreOf p == v) =
        ps.filter (fun p => MainPy.scoreOf p == v)) ∧
    MainPy.sortByScoreDesc
        [MainPy.PaperM.mk 0 (some 5), MainPy.PaperM.mk 1 (some 9),
         MainPy.PaperM.mk 2 (some 9), MainPy.PaperM.mk 3 (some 2)] =
      [MainPy.PaperM.mk 1 (some 9), MainPy.PaperM.mk 2 (some 9),
       MainPy.PaperM.mk 0 (some 5), MainPy.PaperM.mk 3 (some 2)] := by
  refine ⟨PySort.perm_sortDesc _ ps, ?_, ?_, by decide⟩
  · have h := PySort.pairwise_sortDesc MainPy.scoreLt scoreLt_asymm scoreLt_negTrans ps
    refine List.Pairwise.imp ?_ h
    intro a b hab
    have h2 : MainPy.scoreLt a b = false := hab
    simp only [MainPy.scoreLt, decide_eq_false_iff_not] at h2
    omega
  · intro v
    refine PySort.filter_sortDesc MainPy.scoreLt _ ?_ ps
    intro a b ha hb
    have ha2 : MainPy.scoreOf a = v := by simpa using ha
    have hb2 : MainPy.scoreOf b = v := by simpa using hb
    simp only [MainPy.scoreLt, ha2, hb2, decide_eq_false_iff_not]
    omega

/-! ## Claim C9 -/

/-- Claim C9: in the filter module's dispatcher, every model identifier
starting with `azure-` has exactly 10000 added to the requested
`max_tokens` before the backend is called (so the relevance filter's
requested budget of 5 reaches the backend as 10005 and the rating
extractor's 1000 as 11000), while for every non-azure identifier the
requested `max_tokens` is forwarded unchanged to the OpenRouter call. -/
theorem azureDispatch_tokenPad (az : FilterPy.AzureEnv) (orEnv : FilterPy.ORouterEnv)
    (prompt model : Str) (mt : Nat) :
    ((strOf ("azure-")).isPrefixOf model = true → az.importOk = true →
      (FilterPy.callLlmByModel az orEnv prompt model mt).2 =
        [FilterPy.LlmCall.azure (model.drop (strOf ("azure-")).length) (mt + 10000)]) ∧
    ((strOf ("azure-")).isPrefixOf model = false →
      (FilterPy.callLlmByModel az orEnv prompt model mt).2 =
        [FilterPy.LlmCall.openrouter model mt]) := by
  constructor
  · intro h1 h2
    unfold FilterPy.callLlmByModel
    rw [if_pos h1, if_neg (by simp [h2])]
    cases az.result <;> rfl
  · intro h1
    unfold FilterPy.callLlmByModel
    rw [if_neg (by simp [h1])]

def c9Az : FilterPy.AzureEnv :=
  FilterPy.AzureEnv.mk true (FilterPy.AzureResult.ok (strOf ("ok")))

def c9Or : FilterPy.ORouterEnv :=
  FilterPy.ORouterEnv.mk none FilterPy.PostResult.transportErr

/-- Witness for claim C9: with an azure-prefixed deployment the backend
receives 10005 for a requested budget of 5 and 11000 for 1000, and a
non-azure model id forwards the budget unchanged. -/
theorem azureDispatch_tokenPad_witness :
    (FilterPy.callLlmByModel c9Az c9Or (strOf ("p")) (strOf ("azure-gpt-5-nano")) 5).2 =
      [FilterPy.LlmCall.azure
        ((strOf ("azure-gpt-5-nano")).drop (strOf ("azure-")).length) (5 + 10000)] ∧
    (FilterPy.callLlmByModel c9Az c9Or (strOf ("p")) (strOf ("azure-gpt-5-nano")) 1000).2 =
      [FilterPy.LlmCall.azure
        ((strOf ("azure-gpt-5-nano")).drop (strOf ("azure-")).length) (1000 + 10000)] ∧
    (FilterPy.callLlmByModel c9Az c9Or (strOf ("p")) (strOf ("google/gemini-2.0-flash-001")) 5).2 =
      [FilterPy.LlmCall.openrouter (strOf ("google/gemini-2.0-flash-001")) 5] :=
  ⟨(azureDispatch_tokenPad c9Az c9Or (strOf ("p")) (strOf ("azure-gpt-5-nano")) 5).1
      (by decide) rfl,
   (azureDispatch_tokenPad c9Az c9Or (strOf ("p")) (strOf ("azure-gpt-5-nano")) 1000).1
      (by decide) rfl,
   (azureDispatch_tokenPad c9Az c9Or (strOf ("p")) (strOf ("google/gemini-2.0-flash-001")) 5).2
      (by decide)⟩

/-! ## Claim C6 (corrected) -/

/-- Claim C6 (amended): for every dispatch call, a transport failure, an
HTTP status in the 4xx/5xx range (exactly the statuses for which
`raise_for_status` raises), missing credentials, or a response body
lacking the expected reply field yields the typed failure value `None`,
and the Azure branch likewise converts an import failure or a raised
backend exception to `None`; the dispatcher is a total function into an
option type, so the caller always receives either the reply text or the
explicit failure marker, never an escaping exception. -/
theorem dispatcherFailure_contained (env orEnv : FilterPy.ORouterEnv)
    (az : FilterPy.AzureEnv) (prompt model : Str) (mt : Nat) :
    (env.apiKey.getD [] = [] → FilterPy.callOpenrouterApi env prompt model mt = none) ∧
    (env.post = FilterPy.PostResult.transportErr →
      FilterPy.callOpenrouterApi env prompt model mt = none) ∧
    (∀ s r, env.post = FilterPy.PostResult.resp s r → 400 ≤ s → s < 600 →
      FilterPy.callOpenrouterApi env prompt model mt = none) ∧
    (∀ s, env.post = FilterPy.PostResult.resp s none →
      FilterPy.callOpenrouterApi env prompt model mt = none) ∧
    ((strOf ("azure-")).isPrefixOf model = true → az.importOk = false →
      (FilterPy.callLlmByModel az orEnv prompt model mt).1 = none) ∧
    ((strOf ("azure-")).isPrefixOf model = true → az.result = FilterPy.AzureResult.raised →
      (FilterPy.callLlmByModel az orEnv prompt model mt).1 = none) := by
  refine ⟨?_, ?_, ?_, ?_, ?_, ?_⟩
  · intro h
    unfold FilterPy.callOpenrouterApi
    rw [if_pos (by simp [h])]
  · intro h
    unfold FilterPy.callOpenrouterApi
    by_cases hk : (env.apiKey.getD []).isEmpty = true
    · rw [if_pos hk]
    · rw [if_neg hk, h]
  · intro s r h h4 h5
    unfold FilterPy.callOpenrouterApi
    by_cases hk : (env.apiKey.getD []).isEmpty = true
    · rw [if_pos hk]
    · rw [if_neg hk, h]
      simp [h4, h5]
  · intro s h
    unfold FilterPy.callOpenrouterApi
    by_cases hk : (env.apiKey.getD []).isEmpty = true
    · rw [if_pos hk]
    · rw [if_neg hk, h]
      by_cases hs : 400 ≤ s ∧ s < 600 <;> simp [hs]
  · intro h1 h2
    unfold FilterPy.callLlmByModel
    rw [if_pos h1, if_pos h2]
  · intro h1 h2
    unfold FilterPy.callLlmByModel
    rw [if_pos h1]
    by_cases him : az.importOk = false
    · rw [if_pos him]
    · rw [if_neg him, h2]

def c6Env : FilterPy.ORouterEnv :=
  FilterPy.ORouterEnv.mk (some (strOf ("key"))) (FilterPy.PostResult.resp 304 (some (strOf ("ok"))))

/-- Counterexample to claim C6 as stated: a 304 response — a non-2xx
status, but outside the `[400, 600)` range for which
`raise_for_status` raises — carrying a well-formed reply body makes the
dispatcher return the reply text instead of the typed failure `None`,
refuting "non-2xx HTTP status … yields a typed failure value (None)". -/
theorem dispatcherFailure_contained_cex :
    FilterPy.callOpenrouterApi c6Env (strOf ("p")) (strOf ("m")) 5 = some (strOf ("ok")) ∧
    ¬ (200 ≤ 304 ∧ 304 < 300) := by
  constructor
  · rfl
  · decide

def c6EnvT : FilterPy.ORouterEnv :=
  FilterPy.ORouterEnv.mk (some (strOf ("key"))) FilterPy.PostResult.transportErr

def c6Az : FilterPy.AzureEnv := FilterPy.AzureEnv.mk true FilterPy.AzureResult.raised

/-- Witness for claim C6 (amended): a transport failure yields `None`,
a 500 status yields `None`, and a raised Azure exception yields
`None`. -/
theorem dispatcherFailure_contained_witness :
    FilterPy.callOpenrouterApi c6EnvT (strOf ("p")) (strOf ("m")) 5 = none ∧
    FilterPy.callOpenrouterApi
      (FilterPy.ORouterEnv.mk (some (strOf ("key"))) (FilterPy.PostResult.resp 500 none))
      (strOf ("p")) (strOf ("m")) 5 = none ∧
    (FilterPy.callLlmByModel c6Az c6EnvT (strOf ("p")) (strOf ("azure-d")) 5).1 = none :=
  ⟨(dispatcherFailure_contained c6EnvT c6EnvT c6Az (strOf ("p")) (strOf ("m")) 5).2.1 rfl,
   (dispatcherFailure_contained
      (FilterPy.ORouterEnv.mk (some (strOf ("key"))) (FilterPy.PostResult.resp 500 none))
      c6EnvT c6Az (strOf ("p")) (strOf ("m")) 5).2.2.2.1 500 rfl,
   (dispatcherFailure_contained c6EnvT c6EnvT c6Az (strOf ("p")) (strOf ("azure-d")) 5).2.2.2.2.2
      (by decide) rfl⟩

/-! ## Claim C4 -/

/-- Claim C4: the rating extractor makes at most 2 dispatch attempts per
paper; an attempt succeeds when the reply, after optionally stripping a
fenced code-block wrapper, parses as a JSON object, in which case the
object's fields are merged into the paper record and no further attempt
is made (a first-attempt success makes exactly 1 dispatch call, a
second-attempt success 2); when both attempts fail (dispatch failure or
parse failure) the paper is left unchanged after exactly 2 dispatch
calls; and the batch always continues — the output has one entry per
input paper, each the outcome of that paper's own bounded retry. -/
theorem ratingRetry_bounded (parse : Str → Option FilterPy.RObj)
    (llm : Nat → Option Str) (llms : Nat → Nat → Option Str)
    (paper : FilterPy.RObj) (papers : List FilterPy.RObj) :
    (FilterPy.ratePaper parse llm paper).2 ≤ 2 ∧
    (∀ r obj, llm 0 = some r → parse (FilterPy.stripFence r) = some obj →
      FilterPy.ratePaper parse llm paper = (FilterPy.dictUpdate paper obj, 1)) ∧
    (∀ r obj, (∀ r0, llm 0 = some r0 → parse (FilterPy.stripFence r0) = none) →
      llm 1 = some r → parse (FilterPy.stripFence r) = some obj →
      FilterPy.ratePaper parse llm paper = (FilterPy.dictUpdate paper obj, 2)) ∧
    ((∀ a r, llm a = some r → parse (FilterPy.stripFence r) = none) →
      FilterPy.ratePaper parse llm paper = (paper, 2)) ∧
    (FilterPy.ratePapers parse llms papers).length = papers.length ∧
    (∀ i, (FilterPy.ratePapers parse llms papers)[i]? =
      (papers[i]?).map (fun p => (FilterPy.ratePaper parse (llms i) p).1)) := by
  have honce_none : ∀ (resp : Nat → Option Str) (a : Nat),
      (∀ r, resp a = some r → parse (FilterPy.stripFence r) = none) →
      FilterPy.ratePaperOnce parse (resp a) paper = none := by
    intro resp a hfail
    cases hr : resp a with
    | none => simp [FilterPy.ratePaperOnce]
    | some r => simp [FilterPy.ratePaperOnce, hfail r hr]
  refine ⟨?_, ?_, ?_, ?_, ?_, ?_⟩
  · unfold FilterPy.ratePaper
    cases FilterPy.ratePaperOnce parse (llm 0) paper with
    | some p2 => simp
    | none =>
      cases FilterPy.ratePaperOnce parse (llm 1) paper with
      | some p2 => simp
      | none => simp
  · intro r obj hr hp
    have h0 : FilterPy.ratePaperOnce parse (llm 0) paper =
        some (FilterPy.dictUpdate paper obj) := by
      simp [FilterPy.ratePaperOnce, hr, hp]
    simp [FilterPy.ratePaper, h0]
  · intro r obj hfail hr hp
    have h0 : FilterPy.ratePaperOnce parse (llm 0) paper = none := by
      cases hr0 : llm 0 with
      | none => simp [FilterPy.ratePaperOnce]
      | some r0 => simp [FilterPy.ratePaperOnce, hfail r0 hr0]
    have h1 : FilterPy.ratePaperOnce parse (llm 1) paper =
        some (FilterPy.dictUpdate paper obj) := by
      simp [FilterPy.ratePaperOnce, hr, hp]
    simp [FilterPy.ratePaper, h0, h1]
  · intro hfail
    have h0 : FilterPy.ratePaperOnce parse (llm 0) paper = none :=
      honce_none llm 0 (fun r => hfail 0 r)
    have h1 : FilterPy.ratePaperOnce parse (llm 1) paper = none :=
      honce_none llm 1 (fun r => hfail 1 r)
    simp [FilterPy.ratePaper, h0, h1]
  · have haux : ∀ (k : Nat) (ps : List FilterPy.RObj),
        (FilterPy.ratePapersAux parse llms k ps).length = ps.length := by
      intro k ps
      induction ps generalizing k with
      | nil => rfl
      | cons p rest ih => simp [FilterPy.ratePapersAux, ih]
    exact haux 0 papers
  · have hget : ∀ (ps : List FilterPy.RObj) (k i : Nat),
        (FilterPy.ratePapersAux parse llms k ps)[i]? =
          (ps[i]?).map (fun p => (FilterPy.ratePaper parse (llms (k + i)) p).1) := by
      intro ps
      induction ps with
      | nil => intro k i; simp [FilterPy.ratePapersAux]
      | cons p rest ih =>
        intro k i
        cases i with
        | zero => simp [FilterPy.ratePapersAux]
        | succ j =>
          simp only [FilterPy.ratePapersAux, List.getElem?_cons_succ]
          rw [ih (k + 1) j]
          have harith : k + (j + 1) = k + 1 + j := by omega
          rw [harith]
    intro i
    have h := hget papers 0 i
    simpa using h

def c4Parse : Str → Option FilterPy.RObj := fun _ => none

def c4Llm : Nat → Option Str := fun _ => some (strOf ("this is not valid JSON"))

def c4Paper : FilterPy.RObj := [(strOf ("title"), FilterPy.PVal.s (strOf ("T")))]

/-- Witness for claim C4: a stub that always returns text that never
parses results in exactly 2 dispatch calls and the paper unchanged. -/
theorem ratingRetry_bounded_witness :
    FilterPy.ratePaper c4Parse c4Llm c4Paper = (c4Paper, 2) :=
  (ratingRetry_bounded c4Parse c4Llm (fun _ _ => none) c4Paper []).2.2.2.1
    (fun _ _ _ => rfl)

/-! ## Claim C2 -/

theorem deriveHtmlUrl_some (url : Str) (h : url ≠ []) :
    ExtractPy.deriveHtmlUrl url =
      some (pyReplace url (strOf ("/abs/")) (strOf ("/html/"))) := by
  have hne : ¬ (url.isEmpty = true) := by
    cases url with
    | nil => exact absurd rfl h
    | cons c cs => simp
  unfold ExtractPy.deriveHtmlUrl
  rw [if_neg hne]

theorem fetchHtml_success (env : ExtractPy.ESEnv) (url body : Str)
    (hurl : url ≠ []) (hget : env.get = ExtractPy.FetchOutcome.ok 200 body)
    (htraf : env.trafOk = true)
    (hlen : 200 < (pyStrip (env.extract body)).length) :
    ExtractPy.fetchArxivHtmlText env url = some (pyStrip (env.extract body)) := by
  have htext : env.extract body ≠ [] := by
    intro he
    rw [he] at hlen
    simp [pyStrip] at hlen
  unfold ExtractPy.fetchArxivHtmlText
  rw [deriveHtmlUrl_some url hurl, hget]
  simp [htraf, htext, hlen]

theorem fetchHtml_failShort (env : ExtractPy.ESEnv) (url body : Str)
    (hurl : url ≠ []) (hget : env.get = ExtractPy.FetchOutcome.ok 200 body)
    (hlen : (pyStrip (env.extract body)).length ≤ 200) :
    ExtractPy.fetchArxivHtmlText env url = none := by
  unfold ExtractPy.fetchArxivHtmlText
  rw [deriveHtmlUrl_some url hurl, hget]
  have hc : ¬ (env.extract body ≠ [] ∧ 200 < (pyStrip (env.extract body)).length) := by
    intro hc2
    exact absurd hc2.2 (by omega)
  by_cases htraf : env.trafOk = false
  · simp [htraf]
  · simp [htraf, hc]

/-- Claim C2: on the full-text path — the HTML fetch succeeds with
status 200 and the extracted text's stripped length exceeds the
200-character threshold — exactly one dispatcher call is made, with the
text-only output-token budget (10000) over the excerpt truncated to the
100000-character input budget, and the PDF path is never entered; when
the fetch returns 200 but the extracted text is empty or at/below the
threshold, the one and only dispatcher call made is the PDF-attachment
path with the larger budget (20000) — there is never a second full-text
attempt. -/
theorem summarizationFallback_order (env : ExtractPy.ESEnv) (paper : ExtractPy.ESPaper)
    (model body : Str) :
    (env.get = ExtractPy.FetchOutcome.ok 200 body → env.trafOk = true →
      200 < (pyStrip (env.extract body)).length → paper.url ≠ [] →
      (ExtractPy.extractAndSummarize env paper model).2 =
        [ExtractPy.SummCall.textCall
          ((pyStrip (env.extract body)).take ExtractPy.MAX_INPUT_CHARS).length
          ExtractPy.MAX_ARTICLE_TOKENS_TEXT]) ∧
    (env.get = ExtractPy.FetchOutcome.ok 200 body →
      (pyStrip (env.extract body)).length ≤ 200 → paper.url ≠ [] →
      ∃ u, ExtractPy.derivePdfUrl paper.url = some u ∧
        (ExtractPy.extractAndSummarize env paper model).2 =
          [ExtractPy.SummCall.pdfCall u ExtractPy.MAX_ARTICLE_TOKENS_TEXT_IMAGE]) := by
  constructor
  · intro hget htraf hlen hurl
    have hf := fetchHtml_success env paper.url body hurl hget htraf hlen
    unfold ExtractPy.extractAndSummarize
    rw [hf]
  · intro hget hlen hurl
    have hf := fetchHtml_failShort env paper.url body hurl hget hlen
    obtain ⟨u, hu, _⟩ := derivePdfUrl_some paper.url hurl
    refine ⟨u, hu, ?_⟩
    unfold ExtractPy.extractAndSummarize
    rw [hf, hu]

def c2Paper : ExtractPy.ESPaper :=
  ExtractPy.ESPaper.mk (strOf ("T")) (strOf ("A"))
    (strOf ("https://arxiv.org/abs/2401.12345")) none

def c2EnvText : ExtractPy.ESEnv :=
  ExtractPy.ESEnv.mk (ExtractPy.FetchOutcome.ok 200 (strOf ("page"))) true
    (fun _ => List.replicate 201 ('a')) (some (strOf ("summary text")))

def c2EnvShort : ExtractPy.ESEnv :=
  ExtractPy.ESEnv.mk (ExtractPy.FetchOutcome.ok 200 (strOf ("page"))) true
    (fun _ => []) (some (strOf ("summary text")))

/-- Witness for claim C2: with a 201-character extraction the single
recorded call is the text path at budget 10000; with an empty
extraction the single recorded call is the PDF path at budget 20000. -/
theorem summarizationFallback_order_witness :
    (ExtractPy.extractAndSummarize c2EnvText c2Paper (strOf ("m"))).2 =
      [ExtractPy.SummCall.textCall
        ((pyStrip (c2EnvText.extract (strOf ("page")))).take ExtractPy.MAX_INPUT_CHARS).length
        ExtractPy.MAX_ARTICLE_TOKENS_TEXT] ∧
    (∃ u, ExtractPy.derivePdfUrl c2Paper.url = some u ∧
      (ExtractPy.extractAndSummarize c2EnvShort c2Paper (strOf ("m"))).2 =
        [ExtractPy.SummCall.pdfCall u ExtractPy.MAX_ARTICLE_TOKENS_TEXT_IMAGE]) :=
  ⟨(summarizationFallback_order c2EnvText c2Paper (strOf ("m")) (strOf ("page"))).1
      rfl rfl (by decide) (by decide),
   (summarizationFallback_order c2EnvShort c2Paper (strOf ("m")) (strOf ("page"))).2
      rfl (by decide) (by decide)⟩

/-! ## Claim C10 -/

/-- Claim C10: PDF-URL derivation is total on non-empty input — for
every non-empty source URL, `_derive_pdf_url` returns a `some` URL
ending in `.pdf` (substituting `/abs/` with `/pdf/` and appending
`.pdf` when absent) and returns `none` exactly on the empty URL;
consequently the no-derivable-source terminal state of
`extract_and_summarize` — no dispatcher call, paper returned
unmodified — is reachable exactly when the paper's source URL is empty
or missing. -/
theorem derivePdf_total (env : ExtractPy.ESEnv) (paper : ExtractPy.ESPaper) (model : Str) :
    (paper.url ≠ [] →
      ∃ t, ExtractPy.derivePdfUrl paper.url = some t ∧
        (strOf (".pdf")).isSuffixOf t = true) ∧
    (ExtractPy.derivePdfUrl paper.url = none ↔ paper.url = []) ∧
    ((ExtractPy.extractAndSummarize env paper model).2 = [] ↔ paper.url = []) ∧
    (paper.url = [] → ExtractPy.extractAndSummarize env paper model = (paper, [])) := by
  have hempty : paper.url = [] → ExtractPy.extractAndSummarize env paper model = (paper, []) := by
    intro h
    have hf : ExtractPy.fetchArxivHtmlText env paper.url = none := by
      unfold ExtractPy.fetchArxivHtmlText ExtractPy.deriveHtmlUrl
      rw [h]
      rfl
    have hp : ExtractPy.derivePdfUrl paper.url = none := (derivePdfUrl_none_iff paper.url).mpr h
    unfold ExtractPy.extractAndSummarize
    rw [hf, hp]
  refine ⟨fun h => derivePdfUrl_some paper.url h, derivePdfUrl_none_iff paper.url, ?_, hempty⟩
  constructor
  · intro htr
    by_contra hurl
    cases hf : ExtractPy.fetchArxivHtmlText env paper.url with
    | some t =>
      unfold ExtractPy.extractAndSummarize at htr
      rw [hf] at htr
      simp at htr
    | none =>
      obtain ⟨u, hu, _⟩ := derivePdfUrl_some paper.url hurl
      unfold ExtractPy.extractAndSummarize at htr
      rw [hf, hu] at htr
      simp at htr
  · intro h
    rw [hempty h]

def c10Env : ExtractPy.ESEnv :=
  ExtractPy.ESEnv.mk ExtractPy.FetchOutcome.transportErr true (fun _ => []) none

def c10Paper : ExtractPy.ESPaper :=
  ExtractPy.ESPaper.mk (strOf ("T")) (strOf ("A"))
    (strOf ("https://arxiv.org/abs/2401.12345")) none

/-- Witness for claim C10: a standard abstract-page URL yields a
derivable PDF URL ending in `.pdf`. -/
theorem derivePdf_total_witness :
    ∃ t, ExtractPy.derivePdfUrl c10Paper.url = some t ∧
      (strOf (".pdf")).isSuffixOf t = true :=
  (derivePdf_total c10Env c10Paper (strOf ("m"))).1 (by decide)

/-! ## Claim C1 -/

/-- Claim C1: run-cache idempotency — when the artifact for the
(date, feed) run key already exists with non-empty content, the run
performs no feed fetch and no filter/rating/summarization step, and the
render hand-off still happens on the existing artifact; when the
artifact is absent the computation path is taken: the fetch always
happens and, for a non-empty feed with a successful write, the
filter/rating/summarization stages run and the artifact is written,
after which a second invocation for the same run key performs no
computation step at all. -/
theorem runCache_idempotent (env : MainPy.MainEnv) (fs : MainPy.FSState) :
    (∀ c, fs.artifact = some c → c ≠ [] →
      (MainPy.mainRun env fs).2.all MainPy.computeFree = true ∧
      MainPy.Ev.render ∈ (MainPy.mainRun env fs).2) ∧
    (fs.artifact = none →
      MainPy.Ev.fetch ∈ (MainPy.mainRun env fs).2 ∧
      (env.fetchResult ≠ [] → env.writeOk = true →
        MainPy.Ev.filterStage ∈ (MainPy.mainRun env fs).2 ∧
        MainPy.Ev.rateStage ∈ (MainPy.mainRun env fs).2 ∧
        MainPy.Ev.summarizeStage ∈ (MainPy.mainRun env fs).2 ∧
        MainPy.Ev.writeArtifact ∈ (MainPy.mainRun env fs).2 ∧
        (∀ env2 : MainPy.MainEnv,
          (MainPy.mainRun env2 (MainPy.mainRun env fs).1).2.all MainPy.computeFree = true))) := by
  constructor
  · intro c hc _
    have hsome : fs.artifact.isSome = true := by rw [hc]; rfl
    rw [mainRun_hit env fs hsome]
    exact ⟨renderAndIndex_computeFree env fs, renderAndIndex_render_mem env fs hsome⟩
  · intro hnone
    constructor
    · by_cases hf : env.fetchResult.isEmpty = true
      · simp [MainPy.mainRun, hnone, hf]
      · have hf2 := eq_false_of_ne_true hf
        by_cases hw : env.writeOk = true
        · simp [MainPy.mainRun, hnone, hf2, hw]
        · have hw2 := eq_false_of_ne_true hw
          simp [MainPy.mainRun, hnone, hf2, hw2]
    · intro hne hw
      have hf2 : env.fetchResult.isEmpty = false := by
        cases hfr : env.fetchResult with
        | nil => exact absurd hfr hne
        | cons a l => rfl
      refine ⟨?_, ?_, ?_, ?_, ?_⟩
      · simp [MainPy.mainRun, hnone, hf2, hw]
      · simp [MainPy.mainRun, hnone, hf2, hw]
      · simp [MainPy.mainRun, hnone, hf2, hw]
      · simp [MainPy.mainRun, hnone, hf2, hw]
      · intro env2
        have hart : (MainPy.mainRun env fs).1.artifact.isSome = true := by
          simp only [MainPy.mainRun, hnone, Option.isSome_none, Bool.false_eq_true,
            if_false, hf2, hw, if_true]
          rw [renderAndIndex_artifact]
          rfl
        rw [mainRun_hit env2 _ hart]
        exact renderAndIndex_computeFree env2 _

def c1EnvHit : MainPy.MainEnv :=
  MainPy.MainEnv.mk [] (fun l => l) (fun l => l) (fun _ => none) true
    MainPy.RenderOutcome.ok (some []) (strOf ("cs.CV"))

def c1FsHit : MainPy.FSState := MainPy.FSState.mk (some (strOf ("[]"))) none

def c1EnvMiss : MainPy.MainEnv :=
  MainPy.MainEnv.mk [MainPy.PaperM.mk 0 (some 5)] (fun l => l) (fun l => l) (fun _ => none) true
    MainPy.RenderOutcome.ok (some []) (strOf ("cs.CV"))

def c1FsMiss : MainPy.FSState := MainPy.FSState.mk none none

/-- Witness for claim C1: with a non-empty artifact on disk no
computation event is traced, and with no artifact the fetch happens. -/
theorem runCache_idempotent_witness :
    (MainPy.mainRun c1EnvHit c1FsHit).2.all MainPy.computeFree = true ∧
    MainPy.Ev.fetch ∈ (MainPy.mainRun c1EnvMiss c1FsMiss).2 :=
  ⟨((runCache_idempotent c1EnvHit c1FsHit).1 (strOf ("[]")) rfl (by decide)).1,
   ((runCache_idempotent c1EnvMiss c1FsMiss).2 rfl).1⟩

/-! ## Claim C7 -/

/-- Claim C7: on a cache miss with an empty feed result, the run
terminates immediately after the fetch — the file-system state is
unchanged, so no artifact is created — and therefore any subsequent
invocation for the same run key takes the fetch path again instead of
the cache-skip path. -/
theorem emptyFeed_noCache (env : MainPy.MainEnv) (fs : MainPy.FSState)
    (h1 : fs.artifact = none) (h2 : env.fetchResult = []) :
    MainPy.mainRun env fs = (fs, [MainPy.Ev.fetch]) ∧
    (∀ env2 : MainPy.MainEnv,
      MainPy.Ev.fetch ∈ (MainPy.mainRun env2 (MainPy.mainRun env fs).1).2) := by
  have hrun : MainPy.mainRun env fs = (fs, [MainPy.Ev.fetch]) := by
    simp [MainPy.mainRun, h1, h2]
  refine ⟨hrun, ?_⟩
  intro env2
  rw [hrun]
  by_cases hf : env2.fetchResult.isEmpty = true
  · simp [MainPy.mainRun, h1, hf]
  · have hf2 := eq_false_of_ne_true hf
    by_cases hw : env2.writeOk = true
    · simp [MainPy.mainRun, h1, hf2, hw]
    · have hw2 := eq_false_of_ne_true hw
      simp [MainPy.mainRun, h1, hf2, hw2]

def c7Env : MainPy.MainEnv :=
  MainPy.MainEnv.mk [] (fun l => l) (fun l => l) (fun _ => none) true
    MainPy.RenderOutcome.ok (some []) (strOf ("cs.CV"))

def c7Fs : MainPy.FSState := MainPy.FSState.mk none none

/-- Witness for claim C7: an empty feed on a cache miss leaves the
file-system state untouched after the lone fetch. -/
theorem emptyFeed_noCache_witness :
    MainPy.mainRun c7Env c7Fs = (c7Fs, [MainPy.Ev.fetch]) :=
  (emptyFeed_noCache c7Env c7Fs rfl rfl).1

/-! ## Claim C8 (corrected) -/

theorem renderAndIndex_spec (env : MainPy.MainEnv) (fs : MainPy.FSState)
    (h : fs.artifact.isSome = true) :
    MainPy.Ev.render ∈ (MainPy.renderAndIndex env fs).2 ∧
    (env.renderOutcome = MainPy.RenderOutcome.ok → env.htmlListing = none →
      (MainPy.renderAndIndex env fs).1.reports = some []) ∧
    (env.renderOutcome = MainPy.RenderOutcome.ok → ∀ files, env.htmlListing = some files →
      (MainPy.renderAndIndex env fs).1.reports =
        some (MainPy.indexEntries env.providerFeed files) ∧
      MainPy.Ev.writeIndex (MainPy.indexEntries env.providerFeed files) ∈
        (MainPy.renderAndIndex env fs).2) ∧
    (env.renderOutcome = MainPy.RenderOutcome.templateNotFound →
      MainPy.Ev.completed ∈ (MainPy.renderAndIndex env fs).2 ∧
      (MainPy.renderAndIndex env fs).1.reports = fs.reports) := by
  have hne : fs.artifact.isNone = false := by
    cases hc : fs.artifact with
    | none => rw [hc] at h; cases h
    | some c => rfl
  refine ⟨renderAndIndex_render_mem env fs h, ?_, ?_, ?_⟩
  · intro hok hnil
    unfold MainPy.renderAndIndex
    simp [hne, hok, hnil]
  · intro hok files hl
    constructor
    · unfold MainPy.renderAndIndex
      simp [hne, hok, hl]
    · unfold MainPy.renderAndIndex
      simp [hne, hok, hl]
  · intro htnf
    unfold MainPy.renderAndIndex
    simp [hne, htnf]

/-- Claim C8 (amended): once the artifact is in place — pre-existing
(cache hit) or newly written by a miss run with a non-empty feed and a
successful write — the renderer is always invoked; when the renderer
returns normally the secondary index is always written: it is exactly
the `.html` entries of the render output directory, each prefixed with
the feed name, sorted by identifier descending, and an empty list when
the output directory cannot be found; when the renderer raises its
template-not-found condition, the condition is caught and the run
completes without crashing, but the secondary index is NOT updated — it
keeps its previous content. -/
theorem secondaryIndex_maintenance (env : MainPy.MainEnv) (fs : MainPy.FSState)
    (h : fs.artifact.isSome = true ∨
      (fs.artifact = none ∧ env.fetchResult ≠ [] ∧ env.writeOk = true)) :
    MainPy.Ev.render ∈ (MainPy.mainRun env fs).2 ∧
    (env.renderOutcome = MainPy.RenderOutcome.ok → env.htmlListing = none →
      (MainPy.mainRun env fs).1.reports = some []) ∧
    (env.renderOutcome = MainPy.RenderOutcome.ok → ∀ files, env.htmlListing = some files →
      (MainPy.mainRun env fs).1.reports =
        some (MainPy.indexEntries env.providerFeed files) ∧
      MainPy.Ev.writeIndex (MainPy.indexEntries env.providerFeed files) ∈
        (MainPy.mainRun env fs).2 ∧
      (MainPy.indexEntries env.providerFeed files).Pairwise
        (fun a b => MainPy.strLtB a b = false)) ∧
    (env.renderOutcome = MainPy.RenderOutcome.templateNotFound →
      MainPy.Ev.completed ∈ (MainPy.mainRun env fs).2 ∧
      (MainPy.mainRun env fs).1.reports = fs.reports) := by
  have hpair : ∀ files : List Str,
      (MainPy.indexEntries env.providerFeed files).Pairwise
        (fun a b => MainPy.strLtB a b = false) := by
    intro files
    exact PySort.pairwise_sortDesc MainPy.strLtB strLtB_asymm strLtB_negTrans _
  rcases h with hpre | ⟨hnone, hne, hw⟩
  · rw [mainRun_hit env fs hpre]
    have hs := renderAndIndex_spec env fs hpre
    refine ⟨hs.1, hs.2.1, ?_, hs.2.2.2⟩
    intro hok files hl
    exact ⟨(hs.2.2.1 hok files hl).1, (hs.2.2.1 hok files hl).2, hpair files⟩
  · have hf2 : env.fetchResult.isEmpty = false := by
      cases hfr : env.fetchResult with
      | nil => exact absurd hfr hne
      | cons a l => rfl
    have hrw : MainPy.mainRun env fs =
        ((MainPy.renderAndIndex env
            (MainPy.FSState.mk
              (some (MainPy.jsonDumpPapers
                (List.map (fun p => (env.summarizeFn p).getD p)
                  (MainPy.sortByScoreDesc (env.rateFn (env.filterFn env.fetchResult))))))
              fs.reports)).1,
          [MainPy.Ev.fetch, MainPy.Ev.filterStage, MainPy.Ev.rateStage,
            MainPy.Ev.summarizeStage, MainPy.Ev.writeArtifact] ++
          (MainPy.renderAndIndex env
            (MainPy.FSState.mk
              (some (MainPy.jsonDumpPapers
                (List.map (fun p => (env.summarizeFn p).getD p)
                  (MainPy.sortByScoreDesc (env.rateFn (env.filterFn env.fetchResult))))))
              fs.reports)).2) := by
      simp only [MainPy.mainRun, hnone, Option.isSome_none, Bool.false_eq_true, if_false,
        hf2, hw, if_true]
    have hs := renderAndIndex_spec env
      (MainPy.FSState.mk
        (some (MainPy.jsonDumpPapers
          (List.map (fun p => (env.summarizeFn p).getD p)
            (MainPy.sortByScoreDesc (env.rateFn (env.filterFn env.fetchResult))))))
        fs.reports) rfl
    rw [hrw]
    refine ⟨?_, ?_, ?_, ?_⟩
    · exact List.mem_append.mpr (Or.inr hs.1)
    · intro hok hnil
      exact hs.2.1 hok hnil
    · intro hok files hl
      exact ⟨(hs.2.2.1 hok files hl).1,
        List.mem_append.mpr (Or.inr (hs.2.2.1 hok files hl).2), hpair files⟩
    · intro htnf
      exact ⟨List.mem_append.mpr (Or.inr (hs.2.2.2 htnf).1), (hs.2.2.2 htnf).2⟩

def c8Env : MainPy.MainEnv :=
  MainPy.MainEnv.mk [] (fun l => l) (fun l => l) (fun _ => none) true
    MainPy.RenderOutcome.templateNotFound (some [strOf ("2026-02-07.html")]) (strOf ("cs.CV"))

def c8Fs : MainPy.FSState := MainPy.FSState.mk (some (strOf ("[]"))) none

/-- Counterexample to claim C8 as stated: with the artifact in place and
the renderer raising its template-not-found condition, the renderer is
invoked and the run completes (the condition is caught and logged), yet
the secondary index is never written — `reports.json` stays absent —
refuting "the secondary index artifact is always written … including
when the renderer raises its template not found condition". -/
theorem secondaryIndex_maintenance_cex :
    MainPy.mainRun c8Env c8Fs = (c8Fs, [MainPy.Ev.render, MainPy.Ev.completed]) ∧
    c8Fs.reports = none := by
  constructor
  · rfl
  · rfl

def c8EnvOk : MainPy.MainEnv :=
  MainPy.MainEnv.mk [] (fun l => l) (fun l => l) (fun _ => none) true
    MainPy.RenderOutcome.ok (some [strOf ("2026-02-07.html")]) (strOf ("cs.CV"))

def c8EnvNew : MainPy.MainEnv :=
  MainPy.MainEnv.mk [MainPy.PaperM.mk 0 (some 5)] (fun l => l) (fun l => l) (fun _ => none) true
    MainPy.RenderOutcome.ok (some [strOf ("2026-02-07.html")]) (strOf ("cs.CV"))

def c8FsNone : MainPy.FSState := MainPy.FSState.mk none none

/-- Witness for claim C8 (amended): with a pre-existing artifact and a
successful render over a directory holding one `.html` file, the index
is written as exactly the single feed-prefixed entry; with the
template-not-found condition the run completes with the index
untouched; and on the newly-written path (cache miss, non-empty feed,
successful write) the renderer is invoked too. -/
theorem secondaryIndex_maintenance_witness :
    ((MainPy.mainRun c8EnvOk c8Fs).1.reports =
        some (MainPy.indexEntries (strOf ("cs.CV")) [strOf ("2026-02-07.html")]) ∧
      MainPy.Ev.writeIndex (MainPy.indexEntries (strOf ("cs.CV")) [strOf ("2026-02-07.html")]) ∈
        (MainPy.mainRun c8EnvOk c8Fs).2 ∧
      (MainPy.indexEntries (strOf ("cs.CV")) [strOf ("2026-02-07.html")]).Pairwise
        (fun a b => MainPy.strLtB a b = false)) ∧
    (MainPy.Ev.completed ∈ (MainPy.mainRun c8Env c8Fs).2 ∧
      (MainPy.mainRun c8Env c8Fs).1.reports = c8Fs.reports) ∧
    MainPy.Ev.render ∈ (MainPy.mainRun c8EnvNew c8FsNone).2 :=
  ⟨(secondaryIndex_maintenance c8EnvOk c8Fs (Or.inl rfl)).2.2.1 rfl
      [strOf ("2026-02-07.html")] rfl,
   (secondaryIndex_maintenance c8Env c8Fs (Or.inl rfl)).2.2.2 rfl,
   (secondaryIndex_maintenance c8EnvNew c8FsNone
      (Or.inr ⟨rfl, by decide, rfl⟩)).1⟩

end ArxivDaily
